import Mathlib

/-!
Verification of the smtplog SMTP server's per-connection protocol state
machine against its design document.

The Go sources `smtp_connection.go` and `smtp_server.go` are shallowly
embedded below: every handler is a pure function from a connection state and
an input line to an `Outcome` (new connection state, queued responses, mail
records handed to the persistence collaborator, and a `CommandResult`).
Context values that the Go code fetches from `context.Context` (banner host,
TLS configuration presence) and the outcome of the TLS handshake are modelled
as an explicit `SMTPContext` record.  Go string operations are re-implemented
over `String.data` character lists so that every definition evaluates inside
the kernel.
-/

deriving instance DecidableEq for Except

/-! ### Go string primitives (`strings` package operations used by the code) -/

/-- Split a character list at the first occurrence of `c`; `none` when `c`
is absent. Helper for `goSplitN2`. -/
def breakAtChar (c : Char) : List Char → Option (List Char × List Char)
  | [] => none
  | x :: xs =>
    if x = c then some ([], xs)
    else
      match breakAtChar c xs with
      | none => none
      | some (l, r) => some (x :: l, r)

/-- Model of Go `strings.SplitN(s, sep, 2)` for a one-character separator:
the list `[s]` when `sep` does not occur, otherwise the part before the
first occurrence and everything after it. -/
def goSplitN2 (s : String) (sep : Char) : List String :=
  match breakAtChar sep s.data with
  | none => [s]
  | some (l, r) => [String.mk l, String.mk r]

/-- Model of Go `len(s) == 0`-style length checks (character count; the Go
code only ever compares the length against zero, where bytes and
characters agree). -/
def goLen (s : String) : Nat := s.data.length

/-- Model of Go `strings.HasPrefix`. -/
def goStartsWith (s p : String) : Bool := p.data.isPrefixOf s.data

/-- Model of Go `strings.HasSuffix`. -/
def goEndsWith (s p : String) : Bool := p.data.isSuffixOf s.data

/-- Model of Go `strings.TrimPrefix`: remove one leading copy of `p` when
present, otherwise return `s` unchanged. -/
def goTrimLeading (s p : String) : String :=
  if goStartsWith s p then String.mk (s.data.drop p.data.length) else s

/-- ASCII upper-casing of one character (the verbs compared against the
dispatch table are ASCII). -/
def goUpperChar (c : Char) : Char :=
  if 97 ≤ c.toNat ∧ c.toNat ≤ 122 then Char.ofNat (c.toNat - 32) else c

/-- Model of Go `strings.ToUpper` on the ASCII command verbs. -/
def goToUpper (s : String) : String := String.mk (s.data.map goUpperChar)

/-- White-space test of Go `strings.TrimSpace` (Unicode `White_Space`
code points that fit in one byte). -/
def isGoSpace (c : Char) : Bool :=
  c.toNat = 32 ∨ c.toNat = 9 ∨ c.toNat = 10 ∨ c.toNat = 13 ∨ c.toNat = 11 ∨ c.toNat = 12 ∨
    c.toNat = 133 ∨ c.toNat = 160

/-- Model of Go `strings.TrimSpace`. -/
def goTrimSpace (s : String) : String :=
  String.mk (((s.data.dropWhile isGoSpace).reverse.dropWhile isGoSpace).reverse)

/-! ### Base64 (Go `base64.StdEncoding.EncodeToString`) -/

/-- UTF-8 bytes of one character, as natural numbers. -/
def utf8Bytes (c : Char) : List Nat :=
  let n := c.toNat
  if n < 128 then [n]
  else if n < 2048 then [192 + n / 64, 128 + n % 64]
  else if n < 65536 then [224 + n / 4096, 128 + (n / 64) % 64, 128 + n % 64]
  else [240 + n / 262144, 128 + (n / 4096) % 64, 128 + (n / 64) % 64, 128 + n % 64]

/-- The bytes of a Go string (`[]byte(s)`). -/
def stringBytes (s : String) : List Nat := s.data.flatMap utf8Bytes

/-- Digit of the standard base64 alphabet. -/
def base64Digit (n : Nat) : Char :=
  ("ABCDEFGHIJKLMNOPQRSTUVWXYZabcdefghijklmnopqrstuvwxyz0123456789+/".data).getD n 'A'

/-- Standard base64 encoding of a byte list, with `=` padding. -/
def base64Chunks : List Nat → List Char
  | [] => []
  | [b1] =>
    [base64Digit (b1 / 4), base64Digit (b1 % 4 * 16), '=', '=']
  | [b1, b2] =>
    [base64Digit (b1 / 4), base64Digit (b1 % 4 * 16 + b2 / 16), base64Digit (b2 % 16 * 4), '=']
  | b1 :: b2 :: b3 :: rest =>
    base64Digit (b1 / 4) :: base64Digit (b1 % 4 * 16 + b2 / 16) ::
      base64Digit (b2 % 16 * 4 + b3 / 64) :: base64Digit (b3 % 64) :: base64Chunks rest

/-- Model of Go `base64.StdEncoding.EncodeToString([]byte(s))`. -/
def base64StdEncode (s : String) : String := String.mk (base64Chunks (stringBytes s))

/-! ### Data model (`smtp_connection.go`) -/

/-- Result of one command dispatch (`CommandResult` in the source). -/
inductive CommandResult where
  | ok
  | error
  | disconnect
deriving DecidableEq, Repr

/-- Authentication mechanism chosen by an `AUTH` command
(`AuthenticationMechanism` in the source). -/
inductive AuthenticationMechanism where
  | none
  | login
  | plain
deriving DecidableEq, Repr

/-- The in-progress message: body, sender and recipient list
(`SMTPMessage` in the source; `from'` embeds the Go field `from`). -/
structure SMTPMessage where
  data : String
  from' : String
  to' : List String
deriving DecidableEq, Repr

/-- The Go zero value `SMTPMessage{}`. -/
def SMTPMessage.empty : SMTPMessage := { data := "", from' := "", to' := [] }

/-- Per-connection protocol state (`SMTPConnection` in the source).  The
transport handles `netConnection` and `textConnection` are abstracted to
numeric identifiers. -/
structure SMTPConnection where
  authMechanism : AuthenticationMechanism
  authLines : List String
  isDisconnecting : Bool
  isReadingData : Bool
  isReadingAuth : Bool
  message : SMTPMessage
  netConnection : Nat
  textConnection : Nat
deriving DecidableEq, Repr

/-- One queued response (`SMTPResponse` in the source; `isPartial` embeds
the Go field for the `-` continuation separator). -/
structure SMTPResponse where
  code : Nat
  isPartial : Bool
  message : String
deriving DecidableEq, Repr

/-- The values the Go code pulls out of `context.Context` plus the
environment-determined outcome of a TLS handshake: whether a `tls.Config`
was supplied, whether `tlsConn.Handshake()` succeeds, and the fresh
transport handles produced by `tls.Server` / `textproto.NewConn`. -/
structure SMTPContext where
  bannerHost : String
  bannerName : String
  tlsConfigPresent : Bool
  handshakeOk : Bool
  tlsNetHandle : Nat
  tlsTextHandle : Nat
deriving DecidableEq, Repr

/-- Everything one command dispatch produces: the updated connection, the
responses queued on the responder (flushed in order on return), the
messages handed to the persistence collaborator via `logMail`, and the
`CommandResult`. -/
structure Outcome where
  conn : SMTPConnection
  responses : List SMTPResponse
  loggedMail : List SMTPMessage
  result : CommandResult
deriving DecidableEq, Repr

/-! ### Handlers (`smtp_connection.go`) -/

/-- Model of `SMTPMessage.HasRecipient`: the linear scan of the `to` list. -/
def SMTPMessage.HasRecipient (n : SMTPMessage) (address : String) : Bool :=
  n.to'.any (fun t => t == address)

/-- Model of `splitAddressCommand`: require a leading `<` and trailing `>`,
then return the trimmed text before the first `>` and the trimmed rest. -/
def splitAddressCommand (arguments : String) : Except String (String × String) :=
  if goLen arguments < 1 ∨ goStartsWith arguments "<" = false ∨
      goEndsWith arguments ">" = false then
    Except.error "invalid address"
  else
    let args := goTrimLeading arguments "<"
    let parts := goSplitN2 args '>'
    let parts := if parts.length ≠ 2 then parts ++ [""] else parts
    Except.ok (goTrimSpace (parts.getD 0 ""), goTrimSpace (parts.getD 1 ""))

/-- Model of `handleUnknownCommand`. -/
def handleUnknownCommand (_ctx : SMTPContext) (conn : SMTPConnection) (_input : String) :
    Outcome :=
  { conn := conn
    responses := [{ code := 500, isPartial := false, message := "Command not recognized" }]
    loggedMail := []
    result := CommandResult.error }

/-- Model of `handleAuthPLAIN`. -/
def handleAuthPLAIN (_ctx : SMTPContext) (conn : SMTPConnection) (arguments : String) :
    Outcome :=
  { conn := { conn with
      authMechanism := AuthenticationMechanism.plain
      authLines := [arguments] }
    responses := [{ code := 235, isPartial := false, message := "2.7.0 Authentication successful" }]
    loggedMail := []
    result := CommandResult.ok }

/-- Model of `handleAuthLOGIN`. -/
def handleAuthLOGIN (_ctx : SMTPContext) (conn : SMTPConnection) (_arguments : String) :
    Outcome :=
  { conn := { conn with
      authMechanism := AuthenticationMechanism.login
      authLines := []
      isReadingAuth := true }
    responses := [{ code := 334, isPartial := false, message := base64StdEncode "Username:" }]
    loggedMail := []
    result := CommandResult.ok }

/-- Model of `handleAUTH`: split off the mechanism word and dispatch through
the `authHandlers` map (`LOGIN`, `PLAIN`, otherwise unknown). -/
def handleAUTH (ctx : SMTPContext) (conn : SMTPConnection) (input : String) : Outcome :=
  let parts := goSplitN2 input ' '
  let mechanism := parts.getD 0 ""
  let arguments := parts.getD 1 ""
  if mechanism = "LOGIN" then handleAuthLOGIN ctx conn arguments
  else if mechanism = "PLAIN" then handleAuthPLAIN ctx conn arguments
  else handleUnknownCommand ctx conn arguments

/-- Model of `handleDATA`: refuse with 503 unless a sender is set and the
recipient list is non-empty, otherwise reply 354 and enter data capture. -/
def handleDATA (_ctx : SMTPContext) (conn : SMTPConnection) (_arguments : String) : Outcome :=
  if goLen conn.message.from' = 0 ∨ conn.message.to'.length = 0 then
    { conn := conn
      responses := [{ code := 503, isPartial := false, message := "Bad sequence of commands" }]
      loggedMail := []
      result := CommandResult.error }
  else
    { conn := { conn with isReadingData := true }
      responses := [{ code := 354, isPartial := false, message := "End data with <CRLF>.<CRLF>" }]
      loggedMail := []
      result := CommandResult.ok }

/-- Model of `HandlePayload` (data-capture mode): the lone-dot terminator
logs the mail, resets the envelope and replies 250; any other line is
dot-unstuffed and appended to the body with a newline. -/
def HandlePayload (_ctx : SMTPContext) (conn : SMTPConnection) (input : String) : Outcome :=
  if input = "." then
    { conn := { conn with isReadingData := false, message := SMTPMessage.empty }
      responses := [{ code := 250, isPartial := false, message := "OK" }]
      loggedMail := [conn.message]
      result := CommandResult.ok }
  else
    { conn := { conn with
        message := { conn.message with
          data := conn.message.data ++ goTrimLeading input "." ++ "\n" } }
      responses := []
      loggedMail := []
      result := CommandResult.ok }

/-- Model of `HandleAuthPayload` (auth-continuation mode). -/
def HandleAuthPayload (_ctx : SMTPContext) (conn : SMTPConnection) (input : String) :
    Outcome :=
  let conn1 := { conn with isReadingAuth := false }
  match conn1.authMechanism with
  | AuthenticationMechanism.login =>
    let conn2 := { conn1 with authLines := conn1.authLines ++ [input] }
    if conn2.authLines.length < 2 then
      { conn := { conn2 with isReadingAuth := true }
        responses := [{ code := 334, isPartial := false, message := base64StdEncode "Password:" }]
        loggedMail := []
        result := CommandResult.ok }
    else
      { conn := conn2
        responses := [{ code := 235
                        isPartial := false
                        message := "2.7.0 Authentication successful" }]
        loggedMail := []
        result := CommandResult.ok }
  | _ =>
    { conn := conn1, responses := [], loggedMail := [], result := CommandResult.error }

/-- Model of `handleEHLO`: capability list as partial 250 lines, final
`250 HELP`. -/
def handleEHLO (ctx : SMTPContext) (conn : SMTPConnection) (_arguments : String) : Outcome :=
  let lines := [ctx.bannerHost, "PIPELINING", "AUTH LOGIN PLAIN"] ++
    (if ctx.tlsConfigPresent then ["STARTTLS"] else [])
  { conn := conn
    responses := lines.map (fun l => { code := 250, isPartial := true, message := l }) ++
      [{ code := 250, isPartial := false, message := "HELP" }]
    loggedMail := []
    result := CommandResult.ok }

/-- Model of `handleHELO`. -/
def handleHELO (ctx : SMTPContext) (conn : SMTPConnection) (_arguments : String) : Outcome :=
  { conn := conn
    responses := [{ code := 250, isPartial := false, message := ctx.bannerHost }]
    loggedMail := []
    result := CommandResult.ok }

/-- Model of `handleHELP`. -/
def handleHELP (_ctx : SMTPContext) (conn : SMTPConnection) (_arguments : String) : Outcome :=
  { conn := conn
    responses := [{ code := 214
                    isPartial := false
                    message := "I'm sorry Dave, I'm afraid I can't do that" }]
    loggedMail := []
    result := CommandResult.ok }

/-- Model of `handleMAIL`: demand a `FROM:` marker and a parseable
bracket-delimited address, else 501; on success store the sender. -/
def handleMAIL (_ctx : SMTPContext) (conn : SMTPConnection) (arguments : String) : Outcome :=
  if goLen arguments < 1 ∨ goStartsWith arguments "FROM:" = false then
    { conn := conn
      responses := [{ code := 501, isPartial := false, message := "Syntax: MAIL FROM:<address>" }]
      loggedMail := []
      result := CommandResult.error }
  else
    match splitAddressCommand (goTrimLeading arguments "FROM:") with
    | Except.error _ =>
      { conn := conn
        responses := [{ code := 501
                        isPartial := false
                        message := "Syntax: MAIL FROM:<address>" }]
        loggedMail := []
        result := CommandResult.error }
    | Except.ok (address, _) =>
      { conn := { conn with message := { conn.message with from' := address } }
        responses := [{ code := 250, isPartial := false, message := "OK" }]
        loggedMail := []
        result := CommandResult.ok }

/-- Model of `handleNOOP`. -/
def handleNOOP (_ctx : SMTPContext) (conn : SMTPConnection) (_arguments : String) : Outcome :=
  { conn := conn
    responses := [{ code := 250, isPartial := false, message := "OK" }]
    loggedMail := []
    result := CommandResult.ok }

/-- Model of `handleQUIT`. -/
def handleQUIT (_ctx : SMTPContext) (conn : SMTPConnection) (_arguments : String) : Outcome :=
  { conn := conn
    responses := [{ code := 221
                    isPartial := false
                    message := "Service closing transmission channel" }]
    loggedMail := []
    result := CommandResult.disconnect }

/-- Model of `handleRCPT`: demand a `TO:` marker and a parseable address,
else 501; append the address to the recipient list unless already there. -/
def handleRCPT (_ctx : SMTPContext) (conn : SMTPConnection) (arguments : String) : Outcome :=
  if goLen arguments < 1 ∨ goStartsWith arguments "TO:" = false then
    { conn := conn
      responses := [{ code := 501, isPartial := false, message := "Syntax: RCPT TO:<address>" }]
      loggedMail := []
      result := CommandResult.error }
  else
    match splitAddressCommand (goTrimLeading arguments "TO:") with
    | Except.error _ =>
      { conn := conn
        responses := [{ code := 501
                        isPartial := false
                        message := "Syntax: RCPT TO:<address>" }]
        loggedMail := []
        result := CommandResult.error }
    | Except.ok (address, _) =>
      let conn :=
        if conn.message.HasRecipient address = false then
          { conn with message := { conn.message with to' := conn.message.to' ++ [address] } }
        else conn
      { conn := conn
        responses := [{ code := 250, isPartial := false, message := "OK" }]
        loggedMail := []
        result := CommandResult.ok }

/-- Model of `handleRSET`: clear the envelope. -/
def handleRSET (_ctx : SMTPContext) (conn : SMTPConnection) (_arguments : String) : Outcome :=
  { conn := { conn with message := SMTPMessage.empty }
    responses := [{ code := 250, isPartial := false, message := "OK" }]
    loggedMail := []
    result := CommandResult.ok }

/-- Model of `handleSTARTTLS`: 502 when no TLS material is configured;
otherwise reply 220, run the handshake, and on success swap the transport
handles; a failed handshake queues 550 and disconnects. -/
def handleSTARTTLS (ctx : SMTPContext) (conn : SMTPConnection) (_arguments : String) :
    Outcome :=
  if ctx.tlsConfigPresent = false then
    { conn := conn
      responses := [{ code := 502, isPartial := false, message := "Command not implemented" }]
      loggedMail := []
      result := CommandResult.error }
  else if ctx.handshakeOk = false then
    { conn := conn
      responses := [{ code := 220, isPartial := false, message := "Ready to start TLS" },
                    { code := 550, isPartial := false, message := "Failed to start TLS" }]
      loggedMail := []
      result := CommandResult.disconnect }
  else
    { conn := { conn with
        netConnection := ctx.tlsNetHandle
        textConnection := ctx.tlsTextHandle }
      responses := [{ code := 220, isPartial := false, message := "Ready to start TLS" }]
      loggedMail := []
      result := CommandResult.ok }

/-- Model of `handleVRFY`. -/
def handleVRFY (_ctx : SMTPContext) (conn : SMTPConnection) (_arguments : String) : Outcome :=
  { conn := conn
    responses := [{ code := 252, isPartial := false, message := "Cannot VRFY" }]
    loggedMail := []
    result := CommandResult.ok }

/-! ### Command dispatch (`HandleCommand`) -/

/-- The keys of the `smtpCommands` map, as a closed enumeration. -/
inductive SMTPVerb where
  | auth | data | ehlo | helo | help | mail | noop | quit | rcpt | rset | starttls | vrfy
  | unknown
deriving DecidableEq, Repr

/-- Lookup in the `smtpCommands` map of `HandleCommand`: which handler an
upper-cased verb selects (`unknown` models a `nil` map entry). -/
def lookupVerb (command : String) : SMTPVerb :=
  if command = "AUTH" then SMTPVerb.auth
  else if command = "DATA" then SMTPVerb.data
  else if command = "EHLO" then SMTPVerb.ehlo
  else if command = "HELO" then SMTPVerb.helo
  else if command = "HELP" then SMTPVerb.help
  else if command = "MAIL" then SMTPVerb.mail
  else if command = "NOOP" then SMTPVerb.noop
  else if command = "QUIT" then SMTPVerb.quit
  else if command = "RCPT" then SMTPVerb.rcpt
  else if command = "RSET" then SMTPVerb.rset
  else if command = "STARTTLS" then SMTPVerb.starttls
  else if command = "VRFY" then SMTPVerb.vrfy
  else SMTPVerb.unknown

/-- The upper-cased verb of an input line (`command` in `HandleCommand`). -/
def commandVerb (input : String) : String :=
  goToUpper ((goSplitN2 input ' ').getD 0 "")

/-- Everything after the first space of an input line (`arguments` in
`HandleCommand`). -/
def commandArguments (input : String) : String :=
  (goSplitN2 input ' ').getD 1 ""

/-- Model of `HandleCommand`: the 421 short-circuit while disconnecting,
the empty-line hangup outside data capture, the data-capture and
auth-continuation modes, then dispatch through the `smtpCommands` map. -/
def HandleCommand (ctx : SMTPContext) (conn : SMTPConnection) (input : String) : Outcome :=
  if conn.isDisconnecting then
    { conn := conn
      responses := [{ code := 421
                      isPartial := false
                      message := "Service not available, closing transmission channel" }]
      loggedMail := []
      result := CommandResult.disconnect }
  else if conn.isReadingData = false ∧ goLen input = 0 then
    { conn := conn, responses := [], loggedMail := [], result := CommandResult.disconnect }
  else if conn.isReadingData then HandlePayload ctx conn input
  else if conn.isReadingAuth then HandleAuthPayload ctx conn input
  else
    match lookupVerb (commandVerb input) with
    | SMTPVerb.auth => handleAUTH ctx conn (commandArguments input)
    | SMTPVerb.data => handleDATA ctx conn (commandArguments input)
    | SMTPVerb.ehlo => handleEHLO ctx conn (commandArguments input)
    | SMTPVerb.helo => handleHELO ctx conn (commandArguments input)
    | SMTPVerb.help => handleHELP ctx conn (commandArguments input)
    | SMTPVerb.mail => handleMAIL ctx conn (commandArguments input)
    | SMTPVerb.noop => handleNOOP ctx conn (commandArguments input)
    | SMTPVerb.quit => handleQUIT ctx conn (commandArguments input)
    | SMTPVerb.rcpt => handleRCPT ctx conn (commandArguments input)
    | SMTPVerb.rset => handleRSET ctx conn (commandArguments input)
    | SMTPVerb.starttls => handleSTARTTLS ctx conn (commandArguments input)
    | SMTPVerb.vrfy => handleVRFY ctx conn (commandArguments input)
    | SMTPVerb.unknown => handleUnknownCommand ctx conn input

/-! ### Read-failure classifier (`canRetryError` in `smtp_connection.go`) -/

/-- The attributes of a read error that `canRetryError` inspects: whether
`errors.As` extracts a `net.OpError`, and that error's `Temporary()` and
`Timeout()` answers. -/
structure ReadError where
  isNetOpError : Bool
  isTemporary : Bool
  isTimeout : Bool
deriving DecidableEq, Repr

/-- What one call of `canRetryError` decides and does: whether the read
loop keeps going, whether the failure was logged, and how long the call
slept (milliseconds). -/
structure RetryDecision where
  canRetry : Bool
  loggedFailure : Bool
  sleptMilliseconds : Nat
deriving DecidableEq, Repr

/-- Model of `canRetryError`: only a temporary `net.OpError` is retryable;
a non-timeout temporary error is logged and sleeps 100ms first; a
disconnecting connection turns any temporary error fatal. -/
def canRetryError (isDisconnecting : Bool) (e : ReadError) : RetryDecision :=
  if e.isNetOpError && e.isTemporary then
    let logged := !e.isTimeout
    let slept := if e.isTimeout then 0 else 100
    if isDisconnecting then
      { canRetry := false, loggedFailure := logged, sleptMilliseconds := slept }
    else
      { canRetry := true, loggedFailure := logged, sleptMilliseconds := slept }
  else
    { canRetry := false, loggedFailure := false, sleptMilliseconds := 0 }

/-! ### Connection registry (`smtp_server.go`) -/

/-- Model of the insertion `n.connections = append(n.connections, &connection)`
performed by the accept path of `WaitForConnections`; connections are
abstracted to their numeric transport handles. -/
def insertConnection (connections : List Nat) (c : Nat) : List Nat := connections ++ [c]

/-- Model of `removeConnection`: keep every registered connection whose
transport handle differs from the one being closed. -/
def removeConnection (connections : List Nat) (remove : Nat) : List Nat :=
  connections.filter (fun c => c != remove)

/-- The four shared-memory accesses of an accept-path insertion racing a
close-path removal.  Both Go statements are read-modify-write: they load
`n.connections`, build a new slice, and store it back; nothing in
`smtp_server.go` serializes the two, so the loads and stores of the two
goroutines may interleave arbitrarily. -/
inductive RegistryEvent where
  | acceptRead | acceptWrite | closeRead | closeWrite
deriving DecidableEq, Repr

/-- Shared registry plus each goroutine's loaded snapshot. -/
structure RaceState where
  registry : List Nat
  acceptSnap : Option (List Nat)
  closeSnap : Option (List Nat)
deriving DecidableEq, Repr

/-- One step of the unsynchronized interleaving: a read takes a snapshot of
the shared slice header, a write stores the slice computed from that
snapshot. -/
def raceStep (newConn closingConn : Nat) (s : RaceState) : RegistryEvent → RaceState
  | RegistryEvent.acceptRead => { s with acceptSnap := some s.registry }
  | RegistryEvent.acceptWrite =>
    match s.acceptSnap with
    | some snap => { s with registry := insertConnection snap newConn }
    | none => s
  | RegistryEvent.closeRead => { s with closeSnap := some s.registry }
  | RegistryEvent.closeWrite =>
    match s.closeSnap with
    | some snap => { s with registry := removeConnection snap closingConn }
    | none => s

/-- Final registry contents after an interleaving of the two goroutines'
registry accesses. -/
def runRace (newConn closingConn : Nat) (init : List Nat) (events : List RegistryEvent) :
    List Nat :=
  (events.foldl (raceStep newConn closingConn) { registry := init, acceptSnap := none, closeSnap := none }).registry

/-! ### Helper lemmas -/

/-- A Go string has length zero exactly when it is the empty string. -/
theorem goLen_eq_zero_iff (s : String) : goLen s = 0 ↔ s = "" := by
  constructor
  · intro h
    have h2 : s.data = [] := List.length_eq_zero.mp h
    cases s with
    | mk l =>
      simp only at h2
      rw [h2]
  · intro h
    subst h
    rfl

/-- A string that starts with `p` is at least as long as `p`. -/
theorem goStartsWith_goLen_le (s p : String) (h : goStartsWith s p = true) :
    p.data.length ≤ goLen s := by
  unfold goStartsWith at h
  unfold goLen
  exact (List.isPrefixOf_iff_prefix.mp h).length_le

/-- `HasRecipient` answers true exactly when the address is in the
recipient list. -/
theorem hasRecipient_iff (m : SMTPMessage) (a : String) :
    m.HasRecipient a = true ↔ a ∈ m.to' := by
  unfold SMTPMessage.HasRecipient
  simp [List.any_eq_true, beq_iff_eq]

/-- Data-capture lines never disconnect. -/
theorem HandlePayload_result_ok (ctx : SMTPContext) (conn : SMTPConnection) (input : String) :
    (HandlePayload ctx conn input).result = CommandResult.ok := by
  unfold HandlePayload
  split <;> rfl

/-- Auth-continuation lines never disconnect. -/
theorem HandleAuthPayload_result_ne (ctx : SMTPContext) (conn : SMTPConnection)
    (input : String) : (HandleAuthPayload ctx conn input).result ≠ CommandResult.disconnect := by
  obtain ⟨am, al, d, rd, ra, m, nc, tc⟩ := conn
  cases am
  · simp [HandleAuthPayload]
  · unfold HandleAuthPayload
    dsimp only
    split <;> simp
  · simp [HandleAuthPayload]

/-- `AUTH` never disconnects (every mechanism branch answers 334, 235 or 500). -/
theorem handleAUTH_result_ne (ctx : SMTPContext) (conn : SMTPConnection) (input : String) :
    (handleAUTH ctx conn input).result ≠ CommandResult.disconnect := by
  unfold handleAUTH
  dsimp only
  split_ifs <;> simp [handleAuthLOGIN, handleAuthPLAIN, handleUnknownCommand]

/-- `DATA` never disconnects. -/
theorem handleDATA_result_ne (ctx : SMTPContext) (conn : SMTPConnection) (input : String) :
    (handleDATA ctx conn input).result ≠ CommandResult.disconnect := by
  unfold handleDATA
  split <;> simp

/-- `MAIL` never disconnects. -/
theorem handleMAIL_result_ne (ctx : SMTPContext) (conn : SMTPConnection) (input : String) :
    (handleMAIL ctx conn input).result ≠ CommandResult.disconnect := by
  unfold handleMAIL
  split
  · simp
  · split <;> simp

/-- `RCPT` never disconnects. -/
theorem handleRCPT_result_ne (ctx : SMTPContext) (conn : SMTPConnection) (input : String) :
    (handleRCPT ctx conn input).result ≠ CommandResult.disconnect := by
  unfold handleRCPT
  split
  · simp
  · split <;> simp

/-- `STARTTLS` disconnects exactly when TLS material is configured and the
handshake fails. -/
theorem handleSTARTTLS_disconnect_iff (ctx : SMTPContext) (conn : SMTPConnection)
    (input : String) :
    (handleSTARTTLS ctx conn input).result = CommandResult.disconnect ↔
      ctx.tlsConfigPresent = true ∧ ctx.handshakeOk = false := by
  cases htls : ctx.tlsConfigPresent <;> cases hhs : ctx.handshakeOk <;>
    simp [handleSTARTTLS, htls, hhs]

set_option maxHeartbeats 1000000 in
/-- Verb lookup hits the `QUIT` and `STARTTLS` entries only for their
exact keys. -/
theorem lookupVerb_inv (s : String) :
    (lookupVerb s = SMTPVerb.quit ↔ s = "QUIT") ∧
    (lookupVerb s = SMTPVerb.starttls ↔ s = "STARTTLS") := by
  unfold lookupVerb
  split_ifs with h1 h2 h3 h4 h5 h6 h7 h8 h9 h10 h11 h12 <;>
    first
      | (subst_vars; decide)
      | exact ⟨iff_of_false (by decide) h8, iff_of_false (by decide) h11⟩

/-- Verb lookup hits the `QUIT` entry only for the exact key. -/
theorem lookupVerb_eq_quit (s : String) : lookupVerb s = SMTPVerb.quit ↔ s = "QUIT" :=
  (lookupVerb_inv s).1

/-- Verb lookup hits the `STARTTLS` entry only for the exact key. -/
theorem lookupVerb_eq_starttls (s : String) :
    lookupVerb s = SMTPVerb.starttls ↔ s = "STARTTLS" :=
  (lookupVerb_inv s).2

/-! ### Witness fixtures -/

/-- A sample connection context: TLS configured, handshake succeeding. -/
def ctx0 : SMTPContext :=
  { bannerHost := "localhost", bannerName := "smtplog", tlsConfigPresent := true,
    handshakeOk := true, tlsNetHandle := 7, tlsTextHandle := 8 }

/-- A freshly accepted connection in Command state with an empty envelope. -/
def conn0 : SMTPConnection :=
  { authMechanism := AuthenticationMechanism.none, authLines := [],
    isDisconnecting := false, isReadingData := false, isReadingAuth := false,
    message := SMTPMessage.empty, netConnection := 1, textConnection := 2 }

/-! ### Claims -/

/-- C1: for every input line processed while `isDisconnecting` is set —
whatever the line says and whatever mode (command, data capture, auth
continuation) the connection is in — `HandleCommand` queues exactly the
single 421 response and returns the disconnect result, so `WaitForCommands`
exits and the connection is closed. -/
theorem C1_disconnecting_always_421 (ctx : SMTPContext) (conn : SMTPConnection)
    (input : String) (hd : conn.isDisconnecting = true) :
    (HandleCommand ctx conn input).responses =
      [{ code := 421, isPartial := false,
         message := "Service not available, closing transmission channel" }] ∧
    (HandleCommand ctx conn input).result = CommandResult.disconnect := by
  unfold HandleCommand
  rw [hd]
  simp

/-- C1 witness: a disconnecting connection in the middle of data capture
answers a `MAIL` line with the single 421 and disconnects. -/
theorem C1_witness :
    (HandleCommand ctx0 { conn0 with isDisconnecting := true, isReadingData := true }
        "MAIL FROM:<x>").responses =
      [{ code := 421, isPartial := false,
         message := "Service not available, closing transmission channel" }] ∧
    (HandleCommand ctx0 { conn0 with isDisconnecting := true, isReadingData := true }
        "MAIL FROM:<x>").result = CommandResult.disconnect :=
  C1_disconnecting_always_421 ctx0
    { conn0 with isDisconnecting := true, isReadingData := true } "MAIL FROM:<x>" (by decide)

/-- A connection in Command state with a loaded envelope. -/
def connFull : SMTPConnection :=
  { conn0 with message := { data := "", from' := "a@x", to' := ["b@x"] } }

/-- C3: with the connection in Command state, `DATA` answers 503 and leaves
the whole connection (envelope included) untouched when the sender is unset
or no recipient has been accepted; otherwise it answers 354 and the
connection enters data capture, envelope unchanged. -/
theorem C3_data_envelope_invariant (ctx : SMTPContext) (conn : SMTPConnection)
    (hd : conn.isDisconnecting = false) (hr : conn.isReadingData = false)
    (ha : conn.isReadingAuth = false) :
    ((conn.message.from' = "" ∨ conn.message.to' = []) →
      HandleCommand ctx conn "DATA" =
        { conn := conn
          responses := [{ code := 503, isPartial := false, message := "Bad sequence of commands" }]
          loggedMail := []
          result := CommandResult.error }) ∧
    (conn.message.from' ≠ "" → conn.message.to' ≠ [] →
      HandleCommand ctx conn "DATA" =
        { conn := { conn with isReadingData := true }
          responses := [{ code := 354, isPartial := false,
                          message := "End data with <CRLF>.<CRLF>" }]
          loggedMail := []
          result := CommandResult.ok }) := by
  have hv : lookupVerb (commandVerb "DATA") = SMTPVerb.data := by decide
  have harg : commandArguments "DATA" = "" := by decide
  have hlen : goLen "DATA" = 4 := by decide
  have hstep : HandleCommand ctx conn "DATA" = handleDATA ctx conn "" := by
    unfold HandleCommand
    rw [hd, hr, ha, hlen, hv, harg]
    simp
  rw [hstep]
  unfold handleDATA
  constructor
  · intro h
    have hcond : goLen conn.message.from' = 0 ∨ conn.message.to'.length = 0 := by
      rcases h with h | h
      · exact Or.inl ((goLen_eq_zero_iff _).mpr h)
      · exact Or.inr (by rw [h]; rfl)
    rw [if_pos hcond]
  · intro h1 h2
    have hcond : ¬(goLen conn.message.from' = 0 ∨ conn.message.to'.length = 0) := by
      rintro (h | h)
      · exact h1 ((goLen_eq_zero_iff _).mp h)
      · exact h2 (List.length_eq_zero.mp h)
    rw [if_neg hcond]

/-- C3 witness: `DATA` on a fresh envelope answers 503 and changes nothing;
after `MAIL`/`RCPT` have filled the envelope it answers 354 and switches
to data capture. -/
theorem C3_witness :
    HandleCommand ctx0 conn0 "DATA" =
      { conn := conn0
        responses := [{ code := 503, isPartial := false, message := "Bad sequence of commands" }]
        loggedMail := []
        result := CommandResult.error } ∧
    HandleCommand ctx0 connFull "DATA" =
      { conn := { connFull with isReadingData := true }
        responses := [{ code := 354, isPartial := false, message := "End data with <CRLF>.<CRLF>" }]
        loggedMail := []
        result := CommandResult.ok } :=
  ⟨(C3_data_envelope_invariant ctx0 conn0 (by decide) (by decide) (by decide)).1
      (Or.inl (by decide)),
   (C3_data_envelope_invariant ctx0 connFull (by decide) (by decide) (by decide)).2
      (by decide) (by decide)⟩

/-- C4: during data capture a lone `.` ends capture, is never appended,
hands the message to the persistence collaborator, resets the envelope to
the zero value and answers 250; every other line has exactly one leading
`.` stripped when present and is appended to the body with a newline, so
the body only ever grows by a suffix. -/
theorem C4_payload_capture (ctx : SMTPContext) (conn : SMTPConnection) (input : String)
    (hd : conn.isDisconnecting = false) (hr : conn.isReadingData = true) :
    (input = "." →
      HandleCommand ctx conn input =
        { conn := { conn with isReadingData := false, message := SMTPMessage.empty }
          responses := [{ code := 250, isPartial := false, message := "OK" }]
          loggedMail := [conn.message]
          result := CommandResult.ok }) ∧
    (input ≠ "." →
      HandleCommand ctx conn input =
        { conn := { conn with message := { conn.message with
            data := conn.message.data ++
              (if goStartsWith input "." = true then String.mk (input.data.drop 1) else input) ++
              "\n" } }
          responses := []
          loggedMail := []
          result := CommandResult.ok }) := by
  have hstep : HandleCommand ctx conn input = HandlePayload ctx conn input := by
    unfold HandleCommand
    rw [hd, hr]
    simp
  rw [hstep]
  unfold HandlePayload
  have htrim : goTrimLeading input "." =
      (if goStartsWith input "." = true then String.mk (input.data.drop 1) else input) := rfl
  constructor
  · intro h
    rw [if_pos h]
  · intro h
    rw [if_neg h, htrim]

/-- A connection in the middle of data capture. -/
def dataConn : SMTPConnection := { conn0 with isReadingData := true }

/-- A data-capture connection with a partially accumulated message. -/
def dataConnLoaded : SMTPConnection :=
  { conn0 with isReadingData := true, message := { data := "x\n", from' := "a", to' := ["b"] } }

/-- C4 witness: the line `..hello` is stored as `.hello` plus newline, and
the lone-dot terminator resets the envelope, persists the accumulated
message and answers 250. -/
theorem C4_witness :
    HandleCommand ctx0 dataConn "..hello" =
      { conn := { dataConn with message := { data := ".hello\n", from' := "", to' := [] } }
        responses := []
        loggedMail := []
        result := CommandResult.ok } ∧
    HandleCommand ctx0 dataConnLoaded "." =
      { conn := { dataConnLoaded with isReadingData := false, message := SMTPMessage.empty }
        responses := [{ code := 250, isPartial := false, message := "OK" }]
        loggedMail := [{ data := "x\n", from' := "a", to' := ["b"] }]
        result := CommandResult.ok } := by
  constructor
  · have h := (C4_payload_capture ctx0 dataConn "..hello" (by decide) (by decide)).2 (by decide)
    rw [h]
    decide
  · have h := (C4_payload_capture ctx0 dataConnLoaded "." (by decide) (by decide)).1 rfl
    rw [h]
    decide

/-- C10: a successful STARTTLS upgrade replaces only the two transport
handles; the envelope, the auth scratch state and the three mode flags are
untouched, and the handler reports success with the single 220 reply
already flushed before the handshake. -/
theorem C10_starttls_frame (ctx : SMTPContext) (conn : SMTPConnection) (arguments : String)
    (ht : ctx.tlsConfigPresent = true) (hh : ctx.handshakeOk = true) :
    (handleSTARTTLS ctx conn arguments).conn.message = conn.message ∧
    (handleSTARTTLS ctx conn arguments).conn.authMechanism = conn.authMechanism ∧
    (handleSTARTTLS ctx conn arguments).conn.authLines = conn.authLines ∧
    (handleSTARTTLS ctx conn arguments).conn.isDisconnecting = conn.isDisconnecting ∧
    (handleSTARTTLS ctx conn arguments).conn.isReadingData = conn.isReadingData ∧
    (handleSTARTTLS ctx conn arguments).conn.isReadingAuth = conn.isReadingAuth ∧
    (handleSTARTTLS ctx conn arguments).conn.netConnection = ctx.tlsNetHandle ∧
    (handleSTARTTLS ctx conn arguments).conn.textConnection = ctx.tlsTextHandle ∧
    (handleSTARTTLS ctx conn arguments).responses =
      [{ code := 220, isPartial := false, message := "Ready to start TLS" }] ∧
    (handleSTARTTLS ctx conn arguments).result = CommandResult.ok := by
  unfold handleSTARTTLS
  rw [ht, hh]
  simp

/-- A connection mid-session: auth scratch state and envelope populated. -/
def richConn : SMTPConnection :=
  { conn0 with
    authMechanism := AuthenticationMechanism.login
    authLines := ["u"]
    message := { data := "d", from' := "f", to' := ["t"] } }

/-- C10 witness: upgrading a connection with a populated envelope and auth
scratch state keeps every protocol field and swaps the transport handles. -/
theorem C10_witness :
    (handleSTARTTLS ctx0 richConn "").conn.message = richConn.message ∧
    (handleSTARTTLS ctx0 richConn "").conn.authMechanism = richConn.authMechanism ∧
    (handleSTARTTLS ctx0 richConn "").conn.authLines = richConn.authLines ∧
    (handleSTARTTLS ctx0 richConn "").conn.isDisconnecting = richConn.isDisconnecting ∧
    (handleSTARTTLS ctx0 richConn "").conn.isReadingData = richConn.isReadingData ∧
    (handleSTARTTLS ctx0 richConn "").conn.isReadingAuth = richConn.isReadingAuth ∧
    (handleSTARTTLS ctx0 richConn "").conn.netConnection = ctx0.tlsNetHandle ∧
    (handleSTARTTLS ctx0 richConn "").conn.textConnection = ctx0.tlsTextHandle ∧
    (handleSTARTTLS ctx0 richConn "").responses =
      [{ code := 220, isPartial := false, message := "Ready to start TLS" }] ∧
    (handleSTARTTLS ctx0 richConn "").result = CommandResult.ok :=
  C10_starttls_frame ctx0 richConn "" (by decide) (by decide)

/-- A Command-state connection that already has a sender recorded. -/
def mailConn : SMTPConnection :=
  { conn0 with message := { data := "", from' := "a@b", to' := [] } }

/-- C5 counterexample: the claim demands that a `MAIL` whose argument is
not `FROM:` followed by a bracket-delimited NON-EMPTY address answers 501
and leaves the sender untouched, but `MAIL FROM:<>` — an empty
bracket-delimited address — is accepted: the code answers 250 and
overwrites the previously recorded sender with the empty string. -/
theorem C5_counterexample :
    (HandleCommand ctx0 mailConn "MAIL FROM:<>").responses =
      [{ code := 250, isPartial := false, message := "OK" }] ∧
    (HandleCommand ctx0 mailConn "MAIL FROM:<>").result = CommandResult.ok ∧
    mailConn.message.from' = "a@b" ∧
    (HandleCommand ctx0 mailConn "MAIL FROM:<>").conn.message.from' = "" := by
  decide

/-- C5 (amended): a `MAIL` whose argument lacks the `FROM:` marker, or
whose remainder is not bracket-delimited, answers
`501 Syntax: MAIL FROM:<address>` with the connection (sender included)
unchanged; when the remainder parses as a bracket-delimited address —
possibly empty — the code stores that address as the sender and answers
250. -/
theorem C5_mail_from_rules (ctx : SMTPContext) (conn : SMTPConnection)
    (arguments addr rest : String) :
    (goStartsWith arguments "FROM:" = false →
      handleMAIL ctx conn arguments =
        { conn := conn
          responses := [{ code := 501, isPartial := false,
                          message := "Syntax: MAIL FROM:<address>" }]
          loggedMail := []
          result := CommandResult.error }) ∧
    (goStartsWith arguments "FROM:" = true →
      splitAddressCommand (goTrimLeading arguments "FROM:") = Except.error "invalid address" →
      handleMAIL ctx conn arguments =
        { conn := conn
          responses := [{ code := 501, isPartial := false,
                          message := "Syntax: MAIL FROM:<address>" }]
          loggedMail := []
          result := CommandResult.error }) ∧
    (goStartsWith arguments "FROM:" = true →
      splitAddressCommand (goTrimLeading arguments "FROM:") = Except.ok (addr, rest) →
      handleMAIL ctx conn arguments =
        { conn := { conn with message := { conn.message with from' := addr } }
          responses := [{ code := 250, isPartial := false, message := "OK" }]
          loggedMail := []
          result := CommandResult.ok }) := by
  have hpos : goStartsWith arguments "FROM:" = true →
      ¬(goLen arguments < 1 ∨ goStartsWith arguments "FROM:" = false) := by
    intro hs hc
    rcases hc with hc | hc
    · have hle := goStartsWith_goLen_le arguments "FROM:" hs
      have h5 : ("FROM:" : String).data.length = 5 := by decide
      omega
    · rw [hs] at hc
      exact Bool.noConfusion hc
  refine ⟨?_, ?_, ?_⟩
  · intro h
    unfold handleMAIL
    rw [if_pos (Or.inr h)]
  · intro hs he
    unfold handleMAIL
    rw [if_neg (hpos hs), he]
  · intro hs hok
    unfold handleMAIL
    rw [if_neg (hpos hs), hok]

/-- C5 witness: a well-formed sender is stored with a 250 reply, and an
argument without the `FROM:` marker draws the 501 with nothing changed. -/
theorem C5_witness :
    handleMAIL ctx0 conn0 "FROM:<c@d>" =
      { conn := { conn0 with message := { conn0.message with from' := "c@d" } }
        responses := [{ code := 250, isPartial := false, message := "OK" }]
        loggedMail := []
        result := CommandResult.ok } ∧
    handleMAIL ctx0 conn0 "noprefix" =
      { conn := conn0
        responses := [{ code := 501, isPartial := false,
                        message := "Syntax: MAIL FROM:<address>" }]
        loggedMail := []
        result := CommandResult.error } :=
  ⟨(C5_mail_from_rules ctx0 conn0 "FROM:<c@d>" "c@d" "").2.2 (by decide) (by decide),
   (C5_mail_from_rules ctx0 conn0 "noprefix" "" "").1 (by decide)⟩

/-- C6: for every connection and every `RCPT` whose argument parses to an
address, the reply is 250; adding an address already present leaves the
connection completely unchanged; a new address is appended at the end of
the insertion-ordered list, afterwards occurring exactly once; and a
second identical `RCPT` is a no-op on the connection state. -/
theorem C6_rcpt_idempotent (ctx : SMTPContext) (conn : SMTPConnection)
    (arguments addr rest : String)
    (hs : goStartsWith arguments "TO:" = true)
    (hp : splitAddressCommand (goTrimLeading arguments "TO:") = Except.ok (addr, rest)) :
    (handleRCPT ctx conn arguments).responses =
      [{ code := 250, isPartial := false, message := "OK" }] ∧
    (handleRCPT ctx conn arguments).result = CommandResult.ok ∧
    (conn.message.HasRecipient addr = true →
      (handleRCPT ctx conn arguments).conn = conn) ∧
    (conn.message.HasRecipient addr = false →
      (handleRCPT ctx conn arguments).conn.message.to' = conn.message.to' ++ [addr] ∧
      (handleRCPT ctx conn arguments).conn.message.to'.count addr = 1) ∧
    (handleRCPT ctx (handleRCPT ctx conn arguments).conn arguments).conn =
      (handleRCPT ctx conn arguments).conn := by
  have hpos : ¬(goLen arguments < 1 ∨ goStartsWith arguments "TO:" = false) := by
    intro hc
    rcases hc with hc | hc
    · have hle := goStartsWith_goLen_le arguments "TO:" hs
      have h3 : ("TO:" : String).data.length = 3 := by decide
      omega
    · rw [hs] at hc
      exact Bool.noConfusion hc
  have key : ∀ c : SMTPConnection, handleRCPT ctx c arguments =
      { conn := if c.message.HasRecipient addr = false then
          { c with message := { c.message with to' := c.message.to' ++ [addr] } } else c
        responses := [{ code := 250, isPartial := false, message := "OK" }]
        loggedMail := []
        result := CommandResult.ok } := by
    intro c
    unfold handleRCPT
    rw [if_neg hpos, hp]
  refine ⟨?_, ?_, ?_, ?_, ?_⟩
  · rw [key conn]
  · rw [key conn]
  · intro h
    rw [key conn]
    simp [h]
  · intro h
    have hnotmem : addr ∉ conn.message.to' := by
      intro hm
      have h2 := (hasRecipient_iff conn.message addr).mpr hm
      rw [h] at h2
      exact Bool.noConfusion h2
    rw [key conn]
    constructor
    · simp [h]
    · simp [h, List.count_append, List.count_eq_zero.mpr hnotmem]
  · cases h : conn.message.HasRecipient addr
    · rw [key conn]
      simp only [h, if_pos rfl]
      rw [key]
      have hmem : ({ conn with message :=
          { conn.message with to' := conn.message.to' ++ [addr] } } :
            SMTPConnection).message.HasRecipient addr = true := by
        apply (hasRecipient_iff _ _).mpr
        simp
      simp [hmem]
    · rw [key conn]
      simp only [h]
      rw [key]
      simp [h]

/-- C6 witness: sending `RCPT TO:<b@example.com>` twice from a fresh
envelope leaves exactly one copy of the recipient and answers 250 both
times. -/
theorem C6_witness :
    (handleRCPT ctx0 conn0 "TO:<b@example.com>").responses =
      [{ code := 250, isPartial := false, message := "OK" }] ∧
    (handleRCPT ctx0 conn0 "TO:<b@example.com>").conn.message.to' = ["b@example.com"] ∧
    (handleRCPT ctx0 conn0 "TO:<b@example.com>").conn.message.to'.count "b@example.com" = 1 ∧
    (handleRCPT ctx0 (handleRCPT ctx0 conn0 "TO:<b@example.com>").conn
        "TO:<b@example.com>").conn =
      (handleRCPT ctx0 conn0 "TO:<b@example.com>").conn := by
  have h := C6_rcpt_idempotent ctx0 conn0 "TO:<b@example.com>" "b@example.com" ""
    (by decide) (by decide)
  refine ⟨h.1, ?_, ?_, h.2.2.2.2⟩
  · have h2 := (h.2.2.2.1 (by decide)).1
    rw [h2]
    decide
  · exact (h.2.2.2.1 (by decide)).2

/-- C7 counterexample: for a temporary error that IS a timeout, the claim
says the failure is always treated as a no-op with the loop continuing,
but when the connection is already marked disconnecting the code classes
the very same error as fatal (`canRetry = false`); the flag alone flips
the outcome. -/
theorem C7_counterexample :
    (canRetryError true
      { isNetOpError := true, isTemporary := true, isTimeout := true }).canRetry = false ∧
    (canRetryError false
      { isNetOpError := true, isTemporary := true, isTimeout := true }).canRetry = true := by
  decide

/-- C7 (amended): the classifier retries exactly the temporary
`net.OpError`s of a connection not yet marked disconnecting (timeouts
included — a disconnecting connection turns even a timeout fatal); it
logs and sleeps 100ms exactly for temporary non-timeout errors; and every
non-temporary or non-`net.OpError` failure is fatal with no log or sleep. -/
theorem C7_retry_classifier (d : Bool) (e : ReadError) :
    (canRetryError d e).canRetry = (e.isNetOpError && e.isTemporary && !d) ∧
    (canRetryError d e).loggedFailure = (e.isNetOpError && e.isTemporary && !e.isTimeout) ∧
    (canRetryError d e).sleptMilliseconds =
      (if e.isNetOpError && e.isTemporary && !e.isTimeout then 100 else 0) := by
  rcases e with ⟨op, tmp, tmo⟩
  cases d <;> cases op <;> cases tmp <;> cases tmo <;> decide

/-- C9: the registry of live connections is NOT serialized.  Both mutations
are unsynchronized read-modify-write sequences on `n.connections`; in the
interleaving where the closing goroutine loads the slice, the accept
goroutine then loads and stores its insertion, and the closing goroutine
finally stores the removal computed from its stale load, the freshly
accepted connection 2 vanishes from the registry — while under either
serialized order it survives.  This is the lost-update race the design
document flags. -/
theorem C9_registry_lost_update :
    runRace 2 1 [1] [RegistryEvent.closeRead, RegistryEvent.acceptRead,
      RegistryEvent.acceptWrite, RegistryEvent.closeWrite] = [] ∧
    2 ∉ runRace 2 1 [1] [RegistryEvent.closeRead, RegistryEvent.acceptRead,
      RegistryEvent.acceptWrite, RegistryEvent.closeWrite] ∧
    runRace 2 1 [1] [RegistryEvent.acceptRead, RegistryEvent.acceptWrite,
      RegistryEvent.closeRead, RegistryEvent.closeWrite] = [2] ∧
    runRace 2 1 [1] [RegistryEvent.closeRead, RegistryEvent.closeWrite,
      RegistryEvent.acceptRead, RegistryEvent.acceptWrite] = [2] := by
  decide

/-- `EHLO` always succeeds. -/
theorem handleEHLO_result (ctx : SMTPContext) (conn : SMTPConnection) (s : String) :
    (handleEHLO ctx conn s).result = CommandResult.ok := rfl

/-- `HELO` always succeeds. -/
theorem handleHELO_result (ctx : SMTPContext) (conn : SMTPConnection) (s : String) :
    (handleHELO ctx conn s).result = CommandResult.ok := rfl

/-- `HELP` always succeeds. -/
theorem handleHELP_result (ctx : SMTPContext) (conn : SMTPConnection) (s : String) :
    (handleHELP ctx conn s).result = CommandResult.ok := rfl

/-- `NOOP` always succeeds. -/
theorem handleNOOP_result (ctx : SMTPContext) (conn : SMTPConnection) (s : String) :
    (handleNOOP ctx conn s).result = CommandResult.ok := rfl

/-- `QUIT` always disconnects. -/
theorem handleQUIT_result (ctx : SMTPContext) (conn : SMTPConnection) (s : String) :
    (handleQUIT ctx conn s).result = CommandResult.disconnect := rfl

/-- `RSET` always succeeds. -/
theorem handleRSET_result (ctx : SMTPContext) (conn : SMTPConnection) (s : String) :
    (handleRSET ctx conn s).result = CommandResult.ok := rfl

/-- `VRFY` always succeeds. -/
theorem handleVRFY_result (ctx : SMTPContext) (conn : SMTPConnection) (s : String) :
    (handleVRFY ctx conn s).result = CommandResult.ok := rfl

/-- An unrecognized verb yields a client-visible error, never a disconnect. -/
theorem handleUnknownCommand_result (ctx : SMTPContext) (conn : SMTPConnection) (s : String) :
    (handleUnknownCommand ctx conn s).result = CommandResult.error := rfl

/-- A connection waiting for the AUTH LOGIN password line. -/
def authContinConn : SMTPConnection :=
  { conn0 with
    authMechanism := AuthenticationMechanism.login
    authLines := ["u"]
    isReadingAuth := true }

/-- C2 counterexample: the claim's enumeration admits empty-line
termination only in Command state, and declares every other input
non-terminating; but a connection sitting in AuthContinuation (waiting for
the password line, `isReadingAuth`) is torn down by an empty line even
though the disconnect flag is clear and the input is neither `QUIT` nor a
failing `STARTTLS`. -/
theorem C2_counterexample :
    (HandleCommand ctx0 authContinConn "").result = CommandResult.disconnect ∧
    authContinConn.isDisconnecting = false ∧
    authContinConn.isReadingData = false ∧
    authContinConn.isReadingAuth = true ∧
    commandVerb "" ≠ "QUIT" ∧
    commandVerb "" ≠ "STARTTLS" := by
  decide

/-- C2 (amended): `HandleCommand` returns the disconnect result exactly in
these cases — the external disconnect flag is set; an empty line arrives
outside data capture (in Command state or, beyond the claim's enumeration,
in AuthContinuation state); a `QUIT` dispatches from Command state; or a
`STARTTLS` dispatches from Command state with TLS configured and the
handshake failing.  Every other input — every malformed command included —
leaves the connection open. -/
theorem C2_disconnect_characterization (ctx : SMTPContext) (conn : SMTPConnection)
    (input : String) :
    (HandleCommand ctx conn input).result = CommandResult.disconnect ↔
      (conn.isDisconnecting = true ∨
        (conn.isReadingData = false ∧ input = "") ∨
        (conn.isReadingData = false ∧ conn.isReadingAuth = false ∧ input ≠ "" ∧
          commandVerb input = "QUIT") ∨
        (conn.isReadingData = false ∧ conn.isReadingAuth = false ∧ input ≠ "" ∧
          commandVerb input = "STARTTLS" ∧ ctx.tlsConfigPresent = true ∧
          ctx.handshakeOk = false)) := by
  cases hd : conn.isDisconnecting
  · cases hr : conn.isReadingData
    · by_cases hi : input = ""
      · subst hi
        have hgl : goLen "" = 0 := by decide
        simp [HandleCommand, hd, hr, hgl]
      · have hgl : ¬(goLen input = 0) := fun h => hi ((goLen_eq_zero_iff input).mp h)
        cases ha : conn.isReadingAuth
        · simp only [← lookupVerb_eq_quit, ← lookupVerb_eq_starttls]
          cases hv : lookupVerb (commandVerb input) <;>
            simp [HandleCommand, hd, hr, ha, hgl, hi, hv,
              handleAUTH_result_ne, handleDATA_result_ne, handleEHLO_result,
              handleHELO_result, handleHELP_result, handleMAIL_result_ne,
              handleNOOP_result, handleQUIT_result, handleRCPT_result_ne,
              handleRSET_result, handleSTARTTLS_disconnect_iff, handleVRFY_result,
              handleUnknownCommand_result]
        · have h1 := HandleAuthPayload_result_ne ctx conn input
          simp [HandleCommand, hd, hr, ha, hgl, hi, h1]
    · have h1 := HandlePayload_result_ok ctx conn input
      simp [HandleCommand, hd, hr, h1]
  · simp [HandleCommand, hd]

/-- One non-empty line fed to a connection waiting in the LOGIN
continuation: the line is appended to the collected credentials; with
fewer than two lines collected the password prompt follows, otherwise the
235 success reply ends the continuation. -/
theorem handleCommand_auth_step (ctx : SMTPContext) (c : SMTPConnection) (line : String)
    (hd : c.isDisconnecting = false) (hr : c.isReadingData = false)
    (ha : c.isReadingAuth = true) (hm : c.authMechanism = AuthenticationMechanism.login)
    (hl : line ≠ "") :
    HandleCommand ctx c line =
      if (c.authLines ++ [line]).length < 2 then
        { conn := { c with authLines := c.authLines ++ [line], isReadingAuth := true }
          responses := [{ code := 334, isPartial := false,
                          message := base64StdEncode "Password:" }]
          loggedMail := []
          result := CommandResult.ok }
      else
        { conn := { c with authLines := c.authLines ++ [line], isReadingAuth := false }
          responses := [{ code := 235, isPartial := false,
                          message := "2.7.0 Authentication successful" }]
          loggedMail := []
          result := CommandResult.ok } := by
  have hgl : ¬(goLen line = 0) := fun h => hl ((goLen_eq_zero_iff line).mp h)
  have hstep : HandleCommand ctx c line = HandleAuthPayload ctx c line := by
    unfold HandleCommand
    rw [hd, hr, ha]
    simp [hgl]
  rw [hstep]
  unfold HandleAuthPayload
  dsimp only
  rw [hm]

/-- The connection state right after `AUTH LOGIN` was accepted: LOGIN
mechanism chosen, no credential line collected yet, waiting for the
username. -/
def authStart : SMTPConnection :=
  { conn0 with
    authMechanism := AuthenticationMechanism.login
    authLines := []
    isReadingAuth := true }

/-- C8 counterexample: the claim promises that after `AUTH LOGIN` ANY line
is stored as the username and answered 334 with the base64 password
prompt; but the empty line is never stored, draws no 334, and instead
disconnects the session. -/
theorem C8_counterexample :
    (HandleCommand ctx0 authStart "").result = CommandResult.disconnect ∧
    (HandleCommand ctx0 authStart "").responses = [] ∧
    (HandleCommand ctx0 authStart "").conn.authLines = [] := by
  decide

/-- C8 (amended): `AUTH LOGIN` seeds the auth state (LOGIN mechanism, no
lines, continuation flag) and replies 334 with the base64 encoding of
`Username:`; then any NON-EMPTY line is stored as the username and
answered 334 with the base64 encoding of `Password:`; then any non-empty
line is stored as the password and answered 235, returning the connection
to Command state (an empty line at either prompt instead disconnects,
see the counterexample). -/
theorem C8_auth_login_flow (ctx : SMTPContext) (conn : SMTPConnection) (u p : String)
    (hd : conn.isDisconnecting = false) (hr : conn.isReadingData = false)
    (ha : conn.isReadingAuth = false) (hu : u ≠ "") (hp : p ≠ "") :
    HandleCommand ctx conn "AUTH LOGIN" =
      { conn := { conn with
          authMechanism := AuthenticationMechanism.login
          authLines := []
          isReadingAuth := true }
        responses := [{ code := 334, isPartial := false,
                        message := base64StdEncode "Username:" }]
        loggedMail := []
        result := CommandResult.ok } ∧
    base64StdEncode "Username:" = "VXNlcm5hbWU6" ∧
    HandleCommand ctx (HandleCommand ctx conn "AUTH LOGIN").conn u =
      { conn := { conn with
          authMechanism := AuthenticationMechanism.login
          authLines := [u]
          isReadingAuth := true }
        responses := [{ code := 334, isPartial := false,
                        message := base64StdEncode "Password:" }]
        loggedMail := []
        result := CommandResult.ok } ∧
    base64StdEncode "Password:" = "UGFzc3dvcmQ6" ∧
    HandleCommand ctx
        (HandleCommand ctx (HandleCommand ctx conn "AUTH LOGIN").conn u).conn p =
      { conn := { conn with
          authMechanism := AuthenticationMechanism.login
          authLines := [u, p]
          isReadingAuth := false }
        responses := [{ code := 235, isPartial := false,
                        message := "2.7.0 Authentication successful" }]
        loggedMail := []
        result := CommandResult.ok } := by
  have hv : lookupVerb (commandVerb "AUTH LOGIN") = SMTPVerb.auth := by decide
  have harg : commandArguments "AUTH LOGIN" = "LOGIN" := by decide
  have hlen : goLen "AUTH LOGIN" = 10 := by decide
  have hsplit : goSplitN2 "LOGIN" ' ' = ["LOGIN"] := by decide
  have hstep1 : HandleCommand ctx conn "AUTH LOGIN" =
      { conn := { conn with
          authMechanism := AuthenticationMechanism.login
          authLines := []
          isReadingAuth := true }
        responses := [{ code := 334, isPartial := false,
                        message := base64StdEncode "Username:" }]
        loggedMail := []
        result := CommandResult.ok } := by
    unfold HandleCommand
    rw [hd, hr, ha, hlen, hv, harg]
    simp [handleAUTH, hsplit, handleAuthLOGIN, hd, hr, ha]
  have hstep2 : HandleCommand ctx
      { conn with
        authMechanism := AuthenticationMechanism.login
        authLines := []
        isReadingAuth := true } u =
      { conn := { conn with
          authMechanism := AuthenticationMechanism.login
          authLines := [u]
          isReadingAuth := true }
        responses := [{ code := 334, isPartial := false,
                        message := base64StdEncode "Password:" }]
        loggedMail := []
        result := CommandResult.ok } := by
    have h := handleCommand_auth_step ctx
      { conn with
        authMechanism := AuthenticationMechanism.login
        authLines := []
        isReadingAuth := true } u hd hr rfl rfl hu
    rw [if_pos (by simp)] at h
    exact h
  have hstep3 : HandleCommand ctx
      { conn with
        authMechanism := AuthenticationMechanism.login
        authLines := [u]
        isReadingAuth := true } p =
      { conn := { conn with
          authMechanism := AuthenticationMechanism.login
          authLines := [u, p]
          isReadingAuth := false }
        responses := [{ code := 235, isPartial := false,
                        message := "2.7.0 Authentication successful" }]
        loggedMail := []
        result := CommandResult.ok } := by
    have h := handleCommand_auth_step ctx
      { conn with
        authMechanism := AuthenticationMechanism.login
        authLines := [u]
        isReadingAuth := true } p hd hr rfl rfl hp
    rw [if_neg (by simp)] at h
    exact h
  refine ⟨hstep1, by decide, ?_, by decide, ?_⟩
  · rw [hstep1]
    dsimp only
    exact hstep2
  · rw [hstep1]
    dsimp only
    rw [hstep2]
    dsimp only
    exact hstep3

/-- C8 witness: the concrete exchange `AUTH LOGIN`, base64 username,
base64 password runs the three steps with the exact prompts and the final
235. -/
theorem C8_witness :
    HandleCommand ctx0 conn0 "AUTH LOGIN" =
      { conn := { conn0 with
          authMechanism := AuthenticationMechanism.login
          authLines := []
          isReadingAuth := true }
        responses := [{ code := 334, isPartial := false,
                        message := base64StdEncode "Username:" }]
        loggedMail := []
        result := CommandResult.ok } ∧
    base64StdEncode "Username:" = "VXNlcm5hbWU6" ∧
    HandleCommand ctx0 (HandleCommand ctx0 conn0 "AUTH LOGIN").conn "dXNlcg==" =
      { conn := { conn0 with
          authMechanism := AuthenticationMechanism.login
          authLines := ["dXNlcg=="]
          isReadingAuth := true }
        responses := [{ code := 334, isPartial := false,
                        message := base64StdEncode "Password:" }]
        loggedMail := []
        result := CommandResult.ok } ∧
    base64StdEncode "Password:" = "UGFzc3dvcmQ6" ∧
    HandleCommand ctx0
        (HandleCommand ctx0 (HandleCommand ctx0 conn0 "AUTH LOGIN").conn "dXNlcg==").conn
        "cGFzcw==" =
      { conn := { conn0 with
          authMechanism := AuthenticationMechanism.login
          authLines := ["dXNlcg==", "cGFzcw=="]
          isReadingAuth := false }
        responses := [{ code := 235, isPartial := false,
                        message := "2.7.0 Authentication successful" }]
        loggedMail := []
        result := CommandResult.ok } :=
  C8_auth_login_flow ctx0 conn0 "dXNlcg==" "cGFzcw==" (by decide) (by decide) (by decide)
    (by decide) (by decide)
